import Mathlib

/-!
Verification of the mcpweaver reasoning core against its specification.

The development shallowly embeds the plan-normalization layer of
`src/mcpweaver/reasoning_engine.py` (the `ReasoningEngine.reason_about_query`
pipeline, `ReasoningEngine._find_best_tool_match`,
`ReasoningEngine.generate_json_schema`) and the configuration validator
`validate_reasoning_config` of `src/mcpweaver/utils.py`.

Representation choices:
- JSON-like Python values are modelled by the inductive type `JValue`.
  Python floats are modelled as exact fractions (`PyFloat`); every numeric
  comparison performed by the embedded code involves small fractions whose
  float rounding cannot flip any comparison, so exact arithmetic is faithful.
- Python exceptions are modelled with `Except String`; the carried string
  stands for the exception text and only needs to distinguish raising from
  returning.
- The two stages of the pipeline that are pure string processing with
  regular expressions and a JSON parser (markdown fence stripping plus
  `json.loads`, the plain-text fallback parser `_parse_text_response`, and
  the backend transport) are treated as universally quantified inputs of the
  pipeline, collected in `LLMEvent`: the theorems hold for every outcome of
  those stages, and concrete instances fix an outcome explicitly.
-/

/-- Exact rational stand-in for a Python float: `num / den`.  All fractions
built by the embedded code have a positive denominator. -/
structure PyFloat where
  num : Int
  den : Int
deriving Repr, DecidableEq

/-- Comparison `a < b` on fractions by cross multiplication. -/
def PyFloat.blt (a b : PyFloat) : Bool := a.num * b.den < b.num * a.den

/-- Comparison `a <= b` on fractions by cross multiplication. -/
def PyFloat.ble (a b : PyFloat) : Bool := a.num * b.den ≤ b.num * a.den

/-- Equality of fractions by cross multiplication. -/
def PyFloat.beq (a b : PyFloat) : Bool := a.num * b.den == b.num * a.den

/-- The Python float 0.0. -/
def PyFloat.zero : PyFloat := ⟨0, 1⟩

/-- The Python float 1.0. -/
def PyFloat.one : PyFloat := ⟨1, 1⟩

/-- The Python float 0.8 (the legacy confidence default in the source). -/
def PyFloat.pointEight : PyFloat := ⟨4, 5⟩

/-- The Python float 0.6 (the fuzzy-match threshold default in the source). -/
def PyFloat.pointSix : PyFloat := ⟨3, 5⟩

/-- Value of a `PyFloat` as a rational number, for order reasoning. -/
def PyFloat.toRat (a : PyFloat) : ℚ := (a.num : ℚ) / (a.den : ℚ)

/-- JSON-like Python values as they appear in the reasoning engine:
`None`, `bool`, `int`, `float`, `str`, `list`, `dict` (with string keys,
in insertion order). -/
inductive JValue where
  | null
  | bool (b : Bool)
  | int (n : Int)
  | float (x : PyFloat)
  | str (s : String)
  | arr (elems : List JValue)
  | obj (fields : List (String × JValue))
deriving Repr

mutual
/-- Python equality on JSON-like values: structural, with the numeric
cross-type equalities `True == 1 == 1.0` of Python. -/
def JValue.beq : JValue → JValue → Bool
  | .null, .null => true
  | .bool a, .bool b => a == b
  | .int a, .int b => a == b
  | .float a, .float b => PyFloat.beq a b
  | .int a, .float b => PyFloat.beq ⟨a, 1⟩ b
  | .float a, .int b => PyFloat.beq a ⟨b, 1⟩
  | .bool a, .int b => (if a then (1 : Int) else 0) == b
  | .int a, .bool b => a == (if b then (1 : Int) else 0)
  | .bool a, .float b => PyFloat.beq ⟨if a then 1 else 0, 1⟩ b
  | .float a, .bool b => PyFloat.beq a ⟨if b then 1 else 0, 1⟩
  | .str a, .str b => a == b
  | .arr a, .arr b => JValue.beqList a b
  | .obj a, .obj b => JValue.beqFields a b
  | _, _ => false

/-- Elementwise Python equality of two lists. -/
def JValue.beqList : List JValue → List JValue → Bool
  | [], [] => true
  | a :: as1, b :: bs1 => JValue.beq a b && JValue.beqList as1 bs1
  | _, _ => false

/-- Pairwise Python equality of two key-value field lists. -/
def JValue.beqFields : List (String × JValue) → List (String × JValue) → Bool
  | [], [] => true
  | (k, v) :: as1, (l, w) :: bs1 => k == l && JValue.beq v w && JValue.beqFields as1 bs1
  | _, _ => false
end

instance : BEq JValue := ⟨JValue.beq⟩

/-- Python truthiness: `bool(v)` is false exactly for `None`, `False`,
zero numbers, and empty strings, lists, and dicts. -/
def pyFalsy : JValue → Bool
  | .null => true
  | .bool b => !b
  | .int n => n == 0
  | .float x => x.num == 0
  | .str s => s == ""
  | .arr l => l.isEmpty
  | .obj l => l.isEmpty

/-- Discriminator for dict values. -/
def JValue.isDict : JValue → Bool
  | .obj _ => true
  | _ => false

/-- Lookup of a key in a field list, later bindings shadowing earlier ones
(Python dicts built by `json.loads` keep the last occurrence of a duplicate
key), with a default for a missing key: the semantics of `dict.get`. -/
def getFieldD (fs : List (String × JValue)) (k : String) (d : JValue) : JValue :=
  match fs.reverse.find? (fun p => p.1 == k) with
  | some p => p.2
  | none => d

/-- Python `v.get(k, d)`: succeeds only on dicts, raises `AttributeError`
on every other receiver. -/
def pyGetE (v : JValue) (k : String) (d : JValue) : Except String JValue :=
  match v with
  | .obj fs => .ok (getFieldD fs k d)
  | _ => .error "AttributeError"

/-- Whether the first character list starts the second. -/
def charsStartWith : List Char → List Char → Bool
  | [], _ => true
  | _ :: _, [] => false
  | a :: as1, b :: bs1 => a == b && charsStartWith as1 bs1

/-- Whether the first character list occurs contiguously inside the second. -/
def charsContain (needle : List Char) : List Char → Bool
  | [] => needle.isEmpty
  | c :: rest => charsStartWith needle (c :: rest) || charsContain needle rest

/-- Substring test `needle in hay` of Python strings, via character lists. -/
def strContains (needle hay : String) : Bool :=
  charsContain needle.toList hay.toList

/-- Python `k in v` for a string `k`: key membership on dicts, element
membership on lists, substring test on strings, `TypeError` otherwise. -/
def pyContains (v : JValue) (k : String) : Except String Bool :=
  match v with
  | .obj fs => .ok (fs.any (fun p => p.1 == k))
  | .arr xs => .ok (xs.any (fun x => JValue.beq x (.str k)))
  | .str s => .ok (strContains k s)
  | _ => .error "TypeError"

/-- Python `v[k]` subscription with a string key: dict item access
(`KeyError` when missing), `TypeError` on every other receiver. -/
def pySubscript (v : JValue) (k : String) : Except String JValue :=
  match v with
  | .obj fs =>
    match fs.reverse.find? (fun p => p.1 == k) with
    | some p => .ok p.2
    | none => .error "KeyError"
  | _ => .error "TypeError"

/-- Python `for x in v`: lists yield elements, strings yield one-character
strings, dicts yield their keys, everything else raises `TypeError`. -/
def pyIter : JValue → Except String (List JValue)
  | .arr xs => .ok xs
  | .str s => .ok (s.toList.map (fun c => .str (String.singleton c)))
  | .obj fs => .ok (fs.map (fun p => JValue.str p.1))
  | _ => .error "TypeError"

/-- Key presence in a dict value (false on non-dicts); used to state
properties of returned plan mappings. -/
def objHasKey (v : JValue) (k : String) : Bool :=
  match v with
  | .obj fs => fs.any (fun p => p.1 == k)
  | _ => false

/-- Value of a key in a dict value, with a default; used to state
properties of returned plan mappings. -/
def objGetD (v : JValue) (k : String) (d : JValue) : JValue :=
  match v with
  | .obj fs => getFieldD fs k d
  | _ => d

/-- Navigation along a path of keys through nested dict values. -/
def getPath : JValue → List String → Option JValue
  | v, [] => some v
  | .obj fs, k :: ks =>
    match fs.reverse.find? (fun p => p.1 == k) with
    | some p => getPath p.2 ks
    | none => none
  | _, _ :: _ => none

/-! Embedding of `ReasoningEngine._find_best_tool_match`
(`src/mcpweaver/reasoning_engine.py`, lines 557-600).  The candidate name and
the list of known names arrive from JSON, so they are `JValue`s; the source
applies string methods to them and raises on non-strings. -/

/-- Python's lexicographic order on strings, by code point. -/
def charListLt : List Char → List Char → Bool
  | [], [] => false
  | [], _ :: _ => true
  | _ :: _, [] => false
  | a :: as1, b :: bs1 =>
    if a.toNat < b.toNat then true
    else if b.toNat < a.toNat then false
    else charListLt as1 bs1

/-- Python `a < b` on strings. -/
def pyStrLt (a b : String) : Bool := charListLt a.toList b.toList

/-- Python `min(a, b)` on strings: the lexicographically smaller one, the
first on ties. -/
def pyMinStr (a b : String) : String := if pyStrLt b a then b else a

/-- Python `max(a, b)` on strings: the lexicographically larger one, the
first on ties. -/
def pyMaxStr (a b : String) : String := if pyStrLt a b then b else a

/-- ASCII lowercasing of one character, as Python `str.lower` acts on the
ASCII names involved here. -/
def pyLowerChar (c : Char) : Char :=
  if 65 ≤ c.toNat && c.toNat ≤ 90 then Char.ofNat (c.toNat + 32) else c

/-- Character list of `s.lower()`. -/
def pyLowerList (s : String) : List Char := s.toList.map pyLowerChar

/-- Similarity score of the source, lines 585-594: `shorter`/`longer` are
Python `min`/`max` of the two strings, hence LEXICOGRAPHIC extremes; the
score counts characters of `shorter` that occur anywhere in `longer`,
divided by the length of `longer`. -/
def pySimilarity (tool_name available_name : String) : PyFloat :=
  let shorter := pyMinStr tool_name available_name
  let longer := pyMaxStr tool_name available_name
  if longer.length == 0 then PyFloat.one
  else ⟨((shorter.toList.filter (fun c => longer.toList.contains c)).length : Int),
        (longer.length : Int)⟩

/-- Loop of lines 576-578: first known name that matches the candidate as a
case-insensitive substring in either direction; raises `AttributeError` when
a non-string name is reached first (Python calls `.lower()` on it). -/
def substrLoop (s : String) : List JValue → Except String (Option String)
  | [] => .ok none
  | .str a :: rest =>
    if charsContain (pyLowerList s) (pyLowerList a)
       || charsContain (pyLowerList a) (pyLowerList s) then .ok (some a)
    else substrLoop s rest
  | _ :: _ => .error "AttributeError"

/-- Loop of lines 580-598: keep the best similarity score that strictly
improves the running best and clears the threshold; raises `TypeError` when
a non-string name is reached (Python `min`/`max` compare it to a string). -/
def fuzzyLoop (s : String) (threshold : PyFloat) :
    List JValue → Option String → PyFloat → Except String (Option String)
  | [], best, _ => .ok best
  | .str a :: rest, best, best_score =>
    let score := pySimilarity s a
    if PyFloat.blt best_score score && PyFloat.ble threshold score then
      fuzzyLoop s threshold rest (some a) score
    else
      fuzzyLoop s threshold rest best best_score
  | _ :: _, _, _ => .error "TypeError"

/-- Embedding of `_find_best_tool_match(tool_name, available_tool_names,
threshold)`: falsy-candidate and empty-list guard, exact match, substring
match, then the character-overlap loop. -/
def find_best_tool_match (tool_name : JValue) (avail : List JValue)
    (threshold : PyFloat) : Except String (Option JValue) :=
  if pyFalsy tool_name || avail.isEmpty then .ok none
  else if avail.contains tool_name then .ok (some tool_name)
  else
    match tool_name with
    | .str s =>
      match substrLoop s avail with
      | .error e => .error e
      | .ok (some a) => .ok (some (.str a))
      | .ok none =>
        match fuzzyLoop s threshold avail none PyFloat.zero with
        | .error e => .error e
        | .ok r => .ok (r.map JValue.str)
    | _ => .error "AttributeError"

/-! Embedding of the response-shape dispatch of
`ReasoningEngine.reason_about_query`, lines 188-276 of the source. -/

/-- Plan-step dict `{'tool': tool, 'arguments': args, 'why': why}` as built
by the source. -/
def mkStep (tool args why : JValue) : JValue :=
  .obj [("tool", tool), ("arguments", args), ("why", why)]

/-- Tool-name list of line 195: `[tool.get('name') for tool in
available_tools]`; raises on a non-dict entry. -/
def availableToolNames : List JValue → Except String (List JValue)
  | [] => .ok []
  | t :: rest =>
    match t with
    | .obj fs =>
      match availableToolNames rest with
      | .error e => .error e
      | .ok ns => .ok (getFieldD fs "name" .null :: ns)
    | _ => .error "AttributeError"

/-- Validation of one step of a canonical plan, lines 197-218: non-dict
steps are skipped; a step keeps its tool name when known, otherwise the
fuzzy match replaces it, and the step is dropped when the match is falsy. -/
def validateStep (names : List JValue) (step : JValue) :
    Except String (Option JValue) :=
  match step with
  | .obj fs =>
    let tool := getFieldD fs "tool" (.str "")
    let args := getFieldD fs "arguments" (.obj [])
    let why := getFieldD fs "why" (.str "")
    if names.contains tool then .ok (some (mkStep tool args why))
    else
      match find_best_tool_match tool names PyFloat.pointSix with
      | .error e => .error e
      | .ok none => .ok none
      | .ok (some m) =>
        if pyFalsy m then .ok none else .ok (some (mkStep m args why))
  | _ => .ok none

/-- Validation loop over the steps of a canonical plan. -/
def validatePlan (names : List JValue) : List JValue → Except String (List JValue)
  | [] => .ok []
  | s :: rest =>
    match validateStep names s with
    | .error e => .error e
    | .ok os =>
      match validatePlan names rest with
      | .error e => .error e
      | .ok tail => .ok (match os with | some x => x :: tail | none => tail)

/-- Conversion of one legacy `actions` entry, lines 230-238: dict entries
become steps with a fixed `why`, without any tool-name validation. -/
def legacyActionConv (a : JValue) : Option JValue :=
  match a with
  | .obj fs =>
    some (mkStep (getFieldD fs "tool" (.str ""))
                 (getFieldD fs "arguments" (.obj []))
                 (.str "Converted from legacy format"))
  | _ => none

/-- One turn of the legacy `action1..action3` loop, lines 250-263: a missing
`actionN` key contributes nothing (the loop continues), a non-dict value is
skipped, a falsy tool name is skipped. -/
def legacyActionStep (llm_json : JValue) (i : Nat) : Except String (List JValue) :=
  match pyContains llm_json ("action" ++ Nat.repr i) with
  | .error e => .error e
  | .ok false => .ok []
  | .ok true =>
    match pySubscript llm_json ("action" ++ Nat.repr i) with
    | .error e => .error e
    | .ok (.obj fs) =>
      let tool := getFieldD fs "tool" (.str "")
      let args := getFieldD fs "arguments" (.obj [])
      if pyFalsy tool then .ok []
      else .ok [mkStep tool args (.str ("Step " ++ Nat.repr i ++ " from legacy format"))]
    | .ok _ => .ok []

/-- Shape dispatch over the parsed model response, lines 188-276: the
`plan` branch with validation, the legacy `actions` branch, the legacy
`action1..action3` branch, and the fallback that returns an empty plan with
confidence 0.0 and NO error entry.  Raised exceptions (`.error`) are caught
further out by the enclosing handler of the pipeline. -/
def handle_llm_json (llm_json : JValue) (available_tools : List JValue) :
    Except String JValue :=
  match pyContains llm_json "plan" with
  | .error e => .error e
  | .ok true =>
    match pyGetE llm_json "plan" (.arr []) with
    | .error e => .error e
    | .ok plan =>
      match pyGetE llm_json "confidence" (.float PyFloat.pointEight) with
      | .error e => .error e
      | .ok confidence =>
        match availableToolNames available_tools with
        | .error e => .error e
        | .ok names =>
          match pyIter plan with
          | .error e => .error e
          | .ok steps =>
            match validatePlan names steps with
            | .error e => .error e
            | .ok validated =>
              .ok (.obj [("plan", .arr validated), ("confidence", confidence)])
  | .ok false =>
    match pyContains llm_json "actions" with
    | .error e => .error e
    | .ok true =>
      match pyGetE llm_json "actions" (.arr []) with
      | .error e => .error e
      | .ok actions =>
        match pyGetE llm_json "confidence" (.float PyFloat.pointEight) with
        | .error e => .error e
        | .ok confidence =>
          match pyIter actions with
          | .error e => .error e
          | .ok items =>
            .ok (.obj [("plan", .arr (items.filterMap legacyActionConv)),
                       ("confidence", confidence)])
    | .ok false =>
      match pyContains llm_json "action1" with
      | .error e => .error e
      | .ok true =>
        match pyGetE llm_json "confidence" (.float PyFloat.pointEight) with
        | .error e => .error e
        | .ok confidence =>
          match legacyActionStep llm_json 1 with
          | .error e => .error e
          | .ok s1 =>
            match legacyActionStep llm_json 2 with
            | .error e => .error e
            | .ok s2 =>
              match legacyActionStep llm_json 3 with
              | .error e => .error e
              | .ok s3 =>
                .ok (.obj [("plan", .arr (s1 ++ s2 ++ s3)),
                           ("confidence", confidence)])
      | .ok false =>
        .ok (.obj [("plan", .arr []), ("confidence", .float PyFloat.zero)])

/-! Embedding of the full `reason_about_query` pipeline, lines 37-302 of
`src/mcpweaver/reasoning_engine.py`.  Lines 47-126 (tool rendering and
prompt assembly) run BEFORE the `try` of line 129, so their exceptions
propagate to the caller; everything from line 129 on is converted to an
error-shaped plan by the two `except` handlers (lines 278 and 300). -/

/-- Outcome of the one `requests.post` call of line 164: either the call
raised (timeout, connection error, ...), or it returned a status code and
the outcome of `response.json()`. -/
inductive BackendOutcome where
  | raised (msg : String)
  | resp (status : Nat) (body : Except String JValue)

/-- Universally quantified outcomes of the stages of the pipeline that are
external or pure string processing: the JSON-support probe
`_test_json_support` (a Bool, it catches all its own errors), the backend
call, the markdown-strip-plus-`json.loads` outcome of lines 178-179, the
result of the text fallback `_parse_text_response` of line 183 (it catches
all its own errors and always returns a dict), and the repair attempt of
lines 283-291 (`none` when stripping changed nothing or re-parsing failed,
otherwise the re-parsed value). -/
structure LLMEvent where
  supports_json : Bool
  outcome : BackendOutcome
  parse : Except String JValue
  textParse : JValue
  repair : Option JValue

/-- Error-shaped plan returned by every failing exit of the pipeline:
`{'plan': [], 'confidence': 0.0, 'error': msg}`. -/
def errPlan (msg : String) : JValue :=
  .obj [("plan", .arr []), ("confidence", .float PyFloat.zero), ("error", .str msg)]

/-- Repair attempt of lines 283-291: when a repaired JSON value exists and
has a `plan` key, return `{'plan': ..., 'confidence': ...}` with a 0.0
confidence default; any failure inside the attempt is swallowed. -/
def tryRepair : Option JValue → Option JValue
  | none => none
  | some j =>
    match pyContains j "plan" with
    | .error _ => none
    | .ok false => none
    | .ok true =>
      match pyGetE j "plan" (.arr []) with
      | .error _ => none
      | .ok p =>
        match pyGetE j "confidence" (.float PyFloat.zero) with
        | .error _ => none
        | .ok c => some (.obj [("plan", p), ("confidence", c)])

/-- Parse stage of lines 174-185 followed by the shape dispatch: with
schema support the markdown-strip-plus-parse outcome is used, otherwise the
text-fallback value; a parse exception or a dispatch exception is the
`.error` case (it reaches the inner `except` of line 278). -/
def parse_and_dispatch (useSchema : Bool) (ev : LLMEvent) (tools : List JValue) :
    Except String JValue :=
  match (if useSchema then ev.parse else .ok ev.textParse) with
  | .error e => .error e
  | .ok llm_json => handle_llm_json llm_json tools

/-- Body of the `try` of lines 129-298.  A `.error` result models an
exception reaching the outer `except` of line 300; note that exceptions of
the parse-and-dispatch stage are already converted to error plans here
(the inner `except` of line 278), so they surface as `.ok` error plans. -/
def reason_try_body (config : JValue) (tools : List JValue) (ev : LLMEvent) :
    Except String JValue :=
  match pyGetE config "llm" (.obj []) with
  | .error e => .error e
  | .ok llm_config =>
    match pyGetE llm_config "model" (.str "phi3:mini") with
    | .error e => .error e
    | .ok _ =>
      match pyGetE llm_config "provider" (.str "ollama") with
      | .error e => .error e
      | .ok _ =>
        match pyGetE llm_config "api_url" (.str "http://localhost:11434/api/generate") with
        | .error e => .error e
        | .ok _ =>
          match pyGetE llm_config "timeout" (.int 30) with
          | .error e => .error e
          | .ok _ =>
            match pyGetE llm_config "options"
                (.obj [("temperature", .float PyFloat.zero), ("top_p", .float PyFloat.one)]) with
            | .error e => .error e
            | .ok options =>
              match pyGetE config "json_schema" (.obj []) with
              | .error e => .error e
              | .ok base_schema =>
                if (ev.supports_json && !pyFalsy base_schema) && !options.isDict then
                  .error "TypeError"
                else
                  match ev.outcome with
                  | .raised msg => .error msg
                  | .resp status body =>
                    if status == 200 then
                      match body with
                      | .error e => .error e
                      | .ok result =>
                        match pyGetE result "response" (.str "") with
                        | .error e => .error e
                        | .ok respv =>
                          match respv with
                          | .str _ =>
                            match parse_and_dispatch (ev.supports_json && !pyFalsy base_schema) ev tools with
                            | .ok action_plan => .ok action_plan
                            | .error e =>
                              match tryRepair ev.repair with
                              | some r => .ok r
                              | none => .ok (errPlan ("Failed to parse response: " ++ e))
                          | _ => .error "AttributeError"
                    else .ok (errPlan ("LLM API error: " ++ Nat.repr status))

/-- The `try` of lines 129-302 with its outer `except`: an exception in the
body becomes the error plan of line 302. -/
def reason_try (config : JValue) (tools : List JValue) (ev : LLMEvent) : JValue :=
  match reason_try_body config tools ev with
  | .ok r => r
  | .error e => errPlan ("Error calling LLM: " ++ e)

/-! Prompt assembly of lines 47-126, which runs before the `try`. -/

mutual
/-- Simple-field fragment of Python `str.format` with one keyword argument:
doubled braces are literal braces, a braced name substitutes the value when
the name is the given keyword and raises `KeyError` otherwise; unterminated
or bare braces raise `ValueError`.  The model rejects field forms (format
specs, conversions, attribute access) that the templates of this code base
never use; its successes are a subset of Python's. -/
def pyFmt (key value : String) : List Char → Option (List Char)
  | [] => some []
  | c :: rest =>
    if c == '}' then
      match rest with
      | d :: rest2 =>
        if d == '}' then (pyFmt key value rest2).map (fun s => '}' :: s)
        else none
      | [] => none
    else if c == '{' then
      match rest with
      | d :: rest2 =>
        if d == '{' then (pyFmt key value rest2).map (fun s => '{' :: s)
        else pyFmtField key value [] (d :: rest2)
      | [] => none
    else (pyFmt key value rest).map (fun s => c :: s)

/-- Reading of one replacement field up to its closing brace. -/
def pyFmtField (key value : String) (acc : List Char) :
    List Char → Option (List Char)
  | [] => none
  | c :: rest =>
    if c == '}' then
      if String.mk acc.reverse == key then
        (pyFmt key value rest).map (fun s => value.toList ++ s)
      else none
    else pyFmtField key value (c :: acc) rest
end

/-- Default system prompt template of lines 112-113. -/
def defaultSystemTemplate : String :=
  "You are an AI assistant that creates step-based execution plans for tools.\n\nAvailable tools:\n{tools}\n\nYour task is to create an ordered plan where each step is a tool with its arguments and reasoning.\nThe steps will be executed in sequence. Parse the query and create the execution plan.\n\nIMPORTANT RULES:\n- Tool names must match exactly from the list above\n- If required parameters are missing from the query, use placeholder values\n- Each step must include a 'why' field explaining the reasoning\n- Return a JSON object with 'plan' array and 'confidence' number"

/-- Default user prompt template of line 114. -/
def defaultUserTemplate : String := "User query: {query}"

/-- Formatting of a template string, `.error` when Python `str.format`
raises. -/
def pyFormat1 (t : String) (key : String) (value : String) : Except String String :=
  match pyFmt key value t.toList with
  | some cs => .ok (String.mk cs)
  | none => .error "KeyError"

/-- Check of one fallback parameter entry of lines 83-97: `param_data` must
be a dict and its `type` entry (default the string Any) must be a string,
since `_convert_python_type_to_json` calls `.lower()` on it. -/
def checkParamFallback (p : JValue) : Except String Unit :=
  match p with
  | .obj fs =>
    match getFieldD fs "type" (.str "Any") with
    | .str _ => .ok ()
    | _ => .error "AttributeError"
  | _ => .error "AttributeError"

/-- Loop over the fallback parameter entries. -/
def checkParamsList : List (String × JValue) → Except String Unit
  | [] => .ok ()
  | q :: rest =>
    match checkParamFallback q.2 with
    | .error e => .error e
    | .ok _ => checkParamsList rest

/-- The fallback branch of lines 82-97 needs `parameters` to be a dict
(`.items()` is called on it). -/
def checkParamsLoop (params : JValue) : Except String Unit :=
  match params with
  | .obj pf => checkParamsList pf
  | _ => .error "AttributeError"

/-- Loop over `inputSchema.properties` entries of lines 67-80: each schema
must be a dict and `param_name in required` must not raise. -/
def checkSchemaProps (required : JValue) : List (String × JValue) → Except String Unit
  | [] => .ok ()
  | (pname, pschema) :: rest =>
    match pschema with
    | .obj _ =>
      match pyContains required pname with
      | .error e => .error e
      | .ok _ => checkSchemaProps required rest
    | _ => .error "AttributeError"

/-- Raising conditions of the per-tool rendering of lines 50-108: each tool
must be a dict; a truthy `inputSchema` must be a dict, and when its `type`
is the string object its `properties` must be a dict of dicts with a
non-raising `required`; otherwise the `parameters` fallback is checked.
The rendered text itself only feeds the prompt and is not modelled. -/
def checkToolPre (t : JValue) : Except String Unit :=
  match t with
  | .obj fs =>
    let input_schema := getFieldD fs "inputSchema" (.obj [])
    let params := getFieldD fs "parameters" (.obj [])
    if !pyFalsy input_schema then
      match input_schema with
      | .obj isf =>
        if JValue.beq (getFieldD isf "type" .null) (.str "object") then
          match getFieldD isf "properties" (.obj []) with
          | .obj pf => checkSchemaProps (getFieldD isf "required" (.arr [])) pf
          | _ => .error "AttributeError"
        else checkParamsLoop params
      | _ => .error "AttributeError"
    else checkParamsLoop params
  | _ => .error "AttributeError"

/-- Loop of line 51 over the available tools. -/
def checkToolsPre : List JValue → Except String Unit
  | [] => .ok ()
  | t :: rest =>
    match checkToolPre t with
    | .error e => .error e
    | .ok _ => checkToolsPre rest

/-- Pre-`try` prefix of `reason_about_query`, lines 47-126: tool rendering,
reading the two templates from the `reasoning` section of the configuration,
and formatting them (`format` of lines 120 and 126).  An `.error` here is an
exception that propagates to the caller.  The context injection of line 117
is omitted: `_generate_context` catches all its own exceptions and its value
only feeds the prompt text. -/
def reason_pre (config : JValue) (query : String) (tools : List JValue) :
    Except String Unit :=
  match checkToolsPre tools with
  | .error e => .error e
  | .ok _ =>
    match pyGetE config "reasoning" (.obj []) with
    | .error e => .error e
    | .ok rcfg =>
      match pyGetE rcfg "system_prompt_template" (.str defaultSystemTemplate) with
      | .error e => .error e
      | .ok sysT =>
        match pyGetE rcfg "user_prompt_template" (.str defaultUserTemplate) with
        | .error e => .error e
        | .ok usrT =>
          match sysT with
          | .str st =>
            match pyFormat1 st "tools" "" with
            | .error e => .error e
            | .ok _ =>
              match usrT with
              | .str ut =>
                match pyFormat1 ut "query" query with
                | .error e => .error e
                | .ok _ => .ok ()
              | _ => .error "AttributeError"
          | _ => .error "AttributeError"

/-- Embedding of `ReasoningEngine.reason_about_query(query,
available_tools)` for a loaded configuration `config` and an outcome record
`ev` for the external stages: the pre-`try` prefix may raise; after it, the
`try` of line 129 converts every failure to an error-shaped plan. -/
def reason_about_query (config : JValue) (query : String) (tools : List JValue)
    (ev : LLMEvent) : Except String JValue :=
  match reason_pre config query tools with
  | .error e => .error e
  | .ok _ => .ok (reason_try config tools ev)

/-! Embedding of `ReasoningEngine.generate_json_schema`, lines 304-408 of
`src/mcpweaver/reasoning_engine.py`. -/

/-- Embedding of `_convert_python_type_to_json`, lines 602-620: lowercase
lookup in the fixed table, defaulting to string.  (The table's capitalized
Any key can never be hit, since the lookup key is lowercased; the default
returns string for it all the same.) -/
def convert_python_type_to_json (python_type : String) : String :=
  let l := String.mk (pyLowerList python_type)
  if l == "string" || l == "str" then "string"
  else if l == "integer" || l == "int" then "integer"
  else if l == "number" || l == "float" then "number"
  else if l == "boolean" || l == "bool" then "boolean"
  else if l == "array" || l == "list" then "array"
  else if l == "object" || l == "dict" then "object"
  else "string"

/-- Property construction of lines 338-351: each parameter entry must be a
dict with a string `type` (its `.lower()` is taken); returns the schema
properties and the names of required parameters, in order. -/
def synthParamProps :
    List (String × JValue) → Except String (List (String × JValue) × List JValue)
  | [] => .ok ([], [])
  | (pname, pdata) :: rest =>
    match pdata with
    | .obj pf =>
      match getFieldD pf "type" (.str "Any") with
      | .str ptype =>
        let prop : String × JValue :=
          (pname, .obj [("type", .str (convert_python_type_to_json ptype)),
                        ("description",
                         getFieldD pf "description" (.str ("Parameter " ++ pname)))])
        let req : List JValue :=
          if pyFalsy (getFieldD pf "required" (.bool false)) then [] else [.str pname]
        match synthParamProps rest with
        | .error e => .error e
        | .ok (props, reqs) => .ok (prop :: props, req ++ reqs)
      | _ => .error "AttributeError"
    | _ => .error "AttributeError"

/-- Tool schema dict of lines 333-351: the `required` key is present only
when some parameter is required. -/
def mkToolSchema (props : List (String × JValue)) (reqs : List JValue) : JValue :=
  if reqs.isEmpty then .obj [("type", .str "object"), ("properties", .obj props)]
  else .obj [("type", .str "object"), ("properties", .obj props),
             ("required", .arr reqs)]

/-- Fallback synthesis from `parameters`, lines 330-359: falsy parameters
give the empty object schema, a truthy non-dict raises at `.items()`. -/
def synthFromParams (params : JValue) : Except String JValue :=
  if pyFalsy params then .ok (.obj [("type", .str "object"), ("properties", .obj [])])
  else
    match params with
    | .obj pf =>
      match synthParamProps pf with
      | .error e => .error e
      | .ok (props, reqs) => .ok (mkToolSchema props reqs)
    | _ => .error "AttributeError"

/-- Per-tool step of the loop of lines 320-359: the tool name (default the
string unknown) paired with its argument schema; an unhashable name (list
or dict) raises at the `tool_schemas[tool_name]` assignment. -/
def synthToolSchema (t : JValue) : Except String (JValue × JValue) :=
  match t with
  | .obj fs =>
    let input_schema := getFieldD fs "inputSchema" (.obj [])
    let schemaE : Except String JValue :=
      if !pyFalsy input_schema then
        match input_schema with
        | .obj isf =>
          if JValue.beq (getFieldD isf "type" .null) (.str "object") then .ok input_schema
          else synthFromParams (getFieldD fs "parameters" (.obj []))
        | _ => .error "AttributeError"
      else synthFromParams (getFieldD fs "parameters" (.obj []))
    match schemaE with
    | .error e => .error e
    | .ok sch =>
      match getFieldD fs "name" (.str "unknown") with
      | .arr _ => .error "TypeError"
      | .obj _ => .error "TypeError"
      | name => .ok (name, sch)
  | _ => .error "AttributeError"

/-- Sequencing of a fallible function over a list. -/
def mapExcept (f : α → Except String β) : List α → Except String (List β)
  | [] => .ok []
  | a :: rest =>
    match f a with
    | .error e => .error e
    | .ok b =>
      match mapExcept f rest with
      | .error e => .error e
      | .ok bs => .ok (b :: bs)

/-- Lookup `tool_schemas.get(tool_name, d)` where later assignments shadow
earlier ones, as in the Python dict. -/
def lookupSchemaD (pairs : List (JValue × JValue)) (name : JValue) (d : JValue) : JValue :=
  match pairs.reverse.find? (fun p => JValue.beq p.1 name) with
  | some p => p.2
  | none => d

/-- One entry of the `oneOf` comprehension of lines 376-383. -/
def oneOfEntry (pairs : List (JValue × JValue)) (name : JValue) : JValue :=
  .obj [("type", .str "object"),
        ("properties", objGetD (lookupSchemaD pairs name (.obj [])) "properties" (.obj [])),
        ("required", objGetD (lookupSchemaD pairs name (.obj [])) "required" (.arr []))]

/-- The main plan schema of lines 362-406, with dict keys in Python
insertion order. -/
def mainSchema (pairs : List (JValue × JValue)) : JValue :=
  .obj [
    ("type", .str "object"),
    ("properties", .obj [
      ("plan", .obj [
        ("type", .str "array"),
        ("items", .obj [
          ("type", .str "object"),
          ("properties", .obj [
            ("tool", .obj [
              ("type", .str "string"),
              ("enum", .arr (pairs.map (fun p => p.1))),
              ("description", .str "Name of the tool to execute")]),
            ("arguments", .obj [
              ("oneOf", .arr (pairs.map (fun p => oneOfEntry pairs p.1))),
              ("description", .str "Arguments for the tool")]),
            ("why", .obj [
              ("type", .str "string"),
              ("description", .str "Explanation of why this step is needed")])]),
          ("required", .arr [.str "tool", .str "arguments", .str "why"]),
          ("additionalProperties", .bool false)]),
        ("description", .str "Ordered list of execution steps"),
        ("minItems", .int 1)]),
      ("confidence", .obj [
        ("type", .str "number"),
        ("description", .str "Confidence level in the execution plan"),
        ("minimum", .float PyFloat.zero),
        ("maximum", .float PyFloat.one)])]),
    ("required", .arr [.str "plan", .str "confidence"]),
    ("additionalProperties", .bool false)]

/-- Embedding of `generate_json_schema(available_tools)`: `None` for an
empty tool list, otherwise the step-based plan schema built from the
per-tool schemas collected in input order. -/
def generate_json_schema (tools : List JValue) : Except String (Option JValue) :=
  if tools.isEmpty then .ok none
  else
    match mapExcept synthToolSchema tools with
    | .error e => .error e
    | .ok pairs => .ok (some (mainSchema pairs))

/-! Embedding of `validate_reasoning_config` from `src/mcpweaver/utils.py`,
lines 172-194. -/

/-- Embedding of `validate_reasoning_config(config)` for a mapping `config`.
The required-section loop checks `llm` then `reasoning`.  When a `version`
key is present it must be a Python int or str (`bool` being a subclass of
int also passes; floats and containers raise).  The entire major-version
block of lines 186-194 has NO observable effect: the `ValueError` it raises
for a major version above 1 is caught by that same block's
`except Exception: pass` (whose comment says it is there for non-numeric
versions), so every int-or-string version is accepted. -/
def validate_reasoning_config (config : List (String × JValue)) : Except String Unit :=
  if !(config.any (fun p => p.1 == "llm")) then
    .error "Missing required config section: llm"
  else if !(config.any (fun p => p.1 == "reasoning")) then
    .error "Missing required config section: reasoning"
  else
    match getFieldD config "version" .null with
    | .null => .ok ()
    | .int _ => .ok ()
    | .bool _ => .ok ()
    | .str _ => .ok ()
    | _ => .error "version must be int or string"

/-! Renderings of the specification's own description of the fuzzy matcher
(spec section 4.5), used to compare the code against the claim's words. -/

/-- Modelled from the spec: similarity computed with `shorter`/`longer`
taken BY LENGTH, as the claim's words say: count of characters in the
shorter string that appear anywhere in the longer string, divided by the
length of the longer string. -/
def specSimilarity (a b : String) : PyFloat :=
  let shorter := if a.length ≤ b.length then a else b
  let longer := if a.length ≤ b.length then b else a
  if longer.length == 0 then PyFloat.one
  else ⟨((shorter.toList.filter (fun c => longer.toList.contains c)).length : Int),
        (longer.length : Int)⟩

/-- Modelled from the spec: the highest-scoring candidate at or above the
threshold, ties broken by first occurrence in list order, for a given
scoring function. -/
def specBestWith (sim : String → PyFloat) (threshold : PyFloat) :
    List String → Option String
  | [] => none
  | k :: rest =>
    match specBestWith sim threshold rest with
    | none => if PyFloat.ble threshold (sim k) then some k else none
    | some k2 =>
      if PyFloat.blt (sim k) (sim k2) then some k2
      else if PyFloat.ble threshold (sim k) then some k else none

/-- Case-insensitive substring test in either direction, shared by the code
and the spec wording. -/
def substrEitherWay (candidate k : String) : Bool :=
  charsContain (pyLowerList candidate) (pyLowerList k)
    || charsContain (pyLowerList k) (pyLowerList candidate)

/-- Modelled from the spec: the claim's matcher. Exact match first, then
first case-insensitive substring match in either direction, then the
highest length-based similarity at or above the threshold, else nothing. -/
def spec_match (candidate : String) (known : List String) (threshold : PyFloat) :
    Option String :=
  if known.contains candidate then some candidate
  else
    match known.find? (fun k => substrEitherWay candidate k) with
    | some k => some k
    | none => specBestWith (specSimilarity candidate) threshold known

/-- The claim's matcher amended to what the code computes: the code's guard
(an empty candidate or an empty known list gives nothing), and the
similarity taken over the LEXICOGRAPHICALLY smaller/larger strings (Python
`min`/`max` of two strings), not the shorter/longer ones. -/
def spec_match_amended (candidate : String) (known : List String)
    (threshold : PyFloat) : Option String :=
  if candidate == "" || known.isEmpty then none
  else if known.contains candidate then some candidate
  else
    match known.find? (fun k => substrEitherWay candidate k) with
    | some k => some k
    | none => specBestWith (pySimilarity candidate) threshold known

/-- Concrete configuration for the C1 witness: explicit small templates and
a truthy `json_schema` section. -/
def c1Config : JValue :=
  .obj [("reasoning", .obj [("system_prompt_template", .str "{tools}"),
                            ("user_prompt_template", .str "{query}")]),
        ("json_schema", .obj [("x", .int 1)])]

/-- Concrete backend outcome for the C1 witness: HTTP 200 whose response
text fails to parse as JSON, with no repair possible. -/
def c1Event : LLMEvent :=
  ⟨true, .resp 200 (.ok (.obj [("response", .str "xx")])), .error "boom", .null, none⟩

/-- Resulting error plan of the C1 witness run. -/
def c1Result : JValue := errPlan "Failed to parse response: boom"

/-- Parsed model response of the C2 boundary example: the legacy
tools-plus-arguments shape. -/
def c2Response : JValue :=
  .obj [("tools", .arr [.str "np_mean"]),
        ("arguments", .obj [("np_mean", .obj [("a", .arr [.int 1, .int 2, .int 3])])]),
        ("reasoning", .str "x")]

/-- Tool list of the C2 boundary example. -/
def c2Tools : List JValue := [.obj [("name", .str "np_mean")]]

/-- Unrecognized-shape response used to refute C4. -/
def c4Response : JValue := .obj [("foo", .int 1)]

/-- Unrecognized-shape response used in the C4 witness. -/
def c4WitnessResponse : JValue := .obj [("bar", .str "y")]

/-- Legacy numbered response with `action1` and `action3` but no `action2`,
used to refute C9. -/
def c9Response : JValue :=
  .obj [("action1", .obj [("tool", .str "t1"), ("arguments", .obj [])]),
        ("action3", .obj [("tool", .str "t3"), ("arguments", .obj [])])]

/-- Configuration whose user prompt template has an unknown placeholder
(`str.format` raises `KeyError` on it), used to refute C7. -/
def c7BadConfig : JValue :=
  .obj [("reasoning", .obj [("system_prompt_template", .str "{tools}"),
                            ("user_prompt_template", .str "{oops}")])]

/-- Backend outcome record for the C7 theorems; its content is irrelevant
to the counterexample, which fails before the backend is reached. -/
def c7Event : LLMEvent := ⟨false, .raised "down", .ok .null, .null, none⟩

/-- Configuration with well-formed templates for the C7 witness. -/
def c7GoodConfig : JValue :=
  .obj [("reasoning", .obj [("system_prompt_template", .str "sys {tools}"),
                            ("user_prompt_template", .str "{query} now")])]

/-- Tool list for the C10 witness. -/
def c10Tools : List JValue := [.obj [("name", .str "np_mean")]]

/-- Synthesized per-tool pairs for the C10 witness. -/
def c10Pairs : List (JValue × JValue) :=
  [(.str "np_mean", .obj [("type", .str "object"), ("properties", .obj [])])]

/-- Response used to refute C3: the legacy `actions` branch converts steps
without validating tool names. -/
def c3Response : JValue :=
  .obj [("actions", .arr [.obj [("tool", .str "zzz"), ("arguments", .obj [])]])]

/-- Tool list used to refute C3. -/
def c3Tools : List JValue := [.obj [("name", .str "np_mean")]]

/-- Known-name list for the C3 witness. -/
def c3WitnessNames : List JValue := [.str "np_mean"]

/-- Canonical plan steps for the C3 witness: one step whose tool name mean
needs fuzzy correction. -/
def c3WitnessSteps : List JValue :=
  [.obj [("tool", .str "mean"), ("arguments", .obj []), ("why", .str "w")]]

/-- Validated step of the C3 witness. -/
def c3WitnessStep : JValue := mkStep (.str "np_mean") (.obj []) (.str "w")

/-- String-level mirror of `fuzzyLoop` on a list of string names, used to
relate it to the specification's best-score selection. -/
def fuzzyFold (s : String) (th : PyFloat) :
    List String → Option String → PyFloat → Option String
  | [], best, _ => best
  | a :: rest, best, best_score =>
    let score := pySimilarity s a
    if PyFloat.blt best_score score && PyFloat.ble th score then
      fuzzyFold s th rest (some a) score
    else
      fuzzyFold s th rest best best_score

/-! Helper lemmas about the error-shaped plan and the pipeline. -/

theorem errPlan_plan (msg : String) :
    objGetD (errPlan msg) "plan" JValue.null = .arr [] := rfl

theorem errPlan_confidence (msg : String) :
    objGetD (errPlan msg) "confidence" JValue.null = .float PyFloat.zero := rfl

theorem tryRepair_no_error_key (o : Option JValue) (r : JValue)
    (h : tryRepair o = some r) : objHasKey r "error" = false := by
  unfold tryRepair at h
  repeat' split at h
  all_goals (try exact Option.noConfusion h)
  all_goals (injection h with h2; subst h2; rfl)

theorem handle_no_error_key (j : JValue) (ts : List JValue) (r : JValue)
    (h : handle_llm_json j ts = .ok r) : objHasKey r "error" = false := by
  unfold handle_llm_json at h
  repeat' split at h
  all_goals (try exact Except.noConfusion h)
  all_goals (injection h with h2; subst h2; rfl)

theorem parse_and_dispatch_no_error_key (useSchema : Bool) (ev : LLMEvent)
    (ts : List JValue) (r : JValue)
    (h : parse_and_dispatch useSchema ev ts = .ok r) :
    objHasKey r "error" = false := by
  unfold parse_and_dispatch at h
  split at h
  · exact Except.noConfusion h
  · exact handle_no_error_key _ _ _ h

theorem body_ok_shape (config : JValue) (ts : List JValue) (ev : LLMEvent)
    (r : JValue) (h : reason_try_body config ts ev = .ok r) :
    objHasKey r "error" = false ∨ ∃ msg, r = errPlan msg := by
  unfold reason_try_body at h
  repeat' split at h
  all_goals (try exact Except.noConfusion h)
  all_goals injection h with h2
  all_goals subst h2
  case _ heq => exact Or.inl (parse_and_dispatch_no_error_key _ _ _ _ heq)
  case _ heq => exact Or.inl (tryRepair_no_error_key _ _ heq)
  all_goals exact Or.inr ⟨_, rfl⟩

theorem reason_try_error_shape (config : JValue) (ts : List JValue) (ev : LLMEvent)
    (herr : objHasKey (reason_try config ts ev) "error" = true) :
    objGetD (reason_try config ts ev) "plan" JValue.null = .arr [] ∧
      objGetD (reason_try config ts ev) "confidence" JValue.null = .float PyFloat.zero := by
  unfold reason_try at herr ⊢
  cases hbody : reason_try_body config ts ev with
  | error e => simp only [hbody]; exact ⟨rfl, rfl⟩
  | ok r2 =>
    simp only [hbody] at herr ⊢
    rcases body_ok_shape _ _ _ _ hbody with hno | ⟨msg, hm⟩
    · rw [herr] at hno; exact absurd hno (by simp)
    · subst hm; exact ⟨rfl, rfl⟩

/-- Claim C1: for every query string, tool list, and Model Backend response
(including exceptions raised while calling the backend or parsing its
output), if the mapping returned by `reason_about_query` contains an
`error` key, then its `plan` value is the empty list and its `confidence`
value is 0.0. -/
theorem c1_error_implies_empty (config : JValue) (query : String)
    (tools : List JValue) (ev : LLMEvent) (r : JValue)
    (hok : reason_about_query config query tools ev = .ok r)
    (herr : objHasKey r "error" = true) :
    objGetD r "plan" JValue.null = .arr [] ∧
      objGetD r "confidence" JValue.null = .float PyFloat.zero := by
  unfold reason_about_query at hok
  split at hok
  · exact Except.noConfusion hok
  · injection hok with h2
    subst h2
    exact reason_try_error_shape config tools ev herr

/-- Witness for C1 at a concrete input: the pipeline returns an error plan
whose `plan` is empty and whose `confidence` is 0.0. -/
theorem c1_error_implies_empty_witness :
    objGetD c1Result "plan" JValue.null = .arr [] ∧
      objGetD c1Result "confidence" JValue.null = .float PyFloat.zero :=
  c1_error_implies_empty c1Config "q" [] c1Event c1Result rfl rfl

/-- Claim C2, evaluated on the code at the claim's own input: the current
shape dispatch has NO branch for the tools-plus-arguments shape, so the
input falls through to the unrecognized-format fallback and yields an empty
plan with confidence 0.0 instead of the zipped one-step plan that the claim
(and the repository's own test `test_reason_about_query_success`) expects. -/
theorem c2_tools_arguments_not_zipped :
    handle_llm_json c2Response c2Tools =
      .ok (.obj [("plan", .arr []), ("confidence", .float PyFloat.zero)]) := rfl

/-- Claim C4 counterexample: a response matching no recognized shape yields
`{'plan': [], 'confidence': 0.0}` with NO `error` entry, not the claimed
`error = "Unrecognized LLM response format"` (that string appears nowhere
in the code base). -/
theorem c4_counterexample :
    handle_llm_json c4Response [] =
        .ok (.obj [("plan", .arr []), ("confidence", .float PyFloat.zero)]) ∧
      objHasKey (.obj [("plan", .arr []), ("confidence", .float PyFloat.zero)]) "error"
        = false :=
  ⟨rfl, rfl⟩

/-- Claim C4 as amended: when the parsed response has none of the `plan`,
`actions`, `action1` shapes, the dispatcher returns an empty plan with
confidence 0.0 and no error field. -/
theorem c4_unrecognized_no_error (j : JValue) (ts : List JValue)
    (hp : pyContains j "plan" = .ok false)
    (ha : pyContains j "actions" = .ok false)
    (h1 : pyContains j "action1" = .ok false) :
    handle_llm_json j ts =
      .ok (.obj [("plan", .arr []), ("confidence", .float PyFloat.zero)]) := by
  unfold handle_llm_json
  rw [hp, ha, h1]

/-- Witness for the amended C4 at a concrete unrecognized response. -/
theorem c4_unrecognized_no_error_witness :
    pyContains c4WitnessResponse "plan" = .ok false ∧
      pyContains c4WitnessResponse "actions" = .ok false ∧
      pyContains c4WitnessResponse "action1" = .ok false ∧
      handle_llm_json c4WitnessResponse [] =
        .ok (.obj [("plan", .arr []), ("confidence", .float PyFloat.zero)]) :=
  ⟨rfl, rfl, rfl, c4_unrecognized_no_error c4WitnessResponse [] rfl rfl rfl⟩

/-- Claim C5 counterexample: a canonical response without a `confidence`
entry normalizes with confidence 0.8 (the legacy default), not the claimed
0.0. -/
theorem c5_counterexample :
    handle_llm_json (.obj [("plan", .arr [])]) [] =
      .ok (.obj [("plan", .arr []), ("confidence", .float PyFloat.pointEight)]) := rfl

/-- Claim C5 as amended: in the canonical `plan` branch, the returned
confidence is the response's `confidence` value when the key is present
(numeric or not) and 0.8 when it is absent - the same default as the
legacy shapes; the 0.0 default appears only in the repair path. -/
theorem c5_plan_confidence_default (fs : List (String × JValue))
    (ts : List JValue) (r : JValue)
    (hp : pyContains (.obj fs) "plan" = .ok true)
    (h : handle_llm_json (.obj fs) ts = .ok r) :
    objGetD r "confidence" JValue.null =
      getFieldD fs "confidence" (.float PyFloat.pointEight) := by
  unfold handle_llm_json at h
  rw [hp] at h
  simp only [pyGetE] at h
  repeat' split at h
  all_goals (try exact Except.noConfusion h)
  injection h with h2
  subst h2
  rfl

/-- Witness for the amended C5: with `confidence` absent the canonical
branch falls back to 0.8. -/
theorem c5_plan_confidence_default_witness :
    pyContains (.obj [("plan", .arr [])]) "plan" = .ok true ∧
      handle_llm_json (.obj [("plan", JValue.arr [])]) [] =
        .ok (.obj [("plan", .arr []), ("confidence", .float PyFloat.pointEight)]) ∧
      objGetD (.obj [("plan", JValue.arr []), ("confidence", .float PyFloat.pointEight)])
          "confidence" JValue.null =
        getFieldD [("plan", JValue.arr [])] "confidence" (.float PyFloat.pointEight) :=
  ⟨rfl, rfl,
   c5_plan_confidence_default [("plan", JValue.arr [])] [] _ rfl rfl⟩

/-- Claim C6, settled against the code: a config whose `version` is the
string 2.0 is accepted (the `ValueError` raised for a major version above 1
is swallowed by the function's own blanket `except`), while the
missing-section checks and the acceptance of non-numeric versions behave as
claimed. -/
theorem c6_version_check_swallowed :
    validate_reasoning_config
        [("llm", .obj []), ("reasoning", .obj []), ("version", .str "2.0")] = .ok () ∧
      validate_reasoning_config [("reasoning", .obj [])] =
        .error "Missing required config section: llm" ∧
      validate_reasoning_config [("llm", .obj [])] =
        .error "Missing required config section: reasoning" ∧
      validate_reasoning_config
        [("llm", .obj []), ("reasoning", .obj []), ("version", .str "abc")] = .ok () :=
  ⟨rfl, rfl, rfl, rfl⟩

/-- Claim C9 counterexample: with `action2` missing, the loop does NOT stop
after `action1`; the step from `action3` is also in the plan. -/
theorem c9_counterexample :
    handle_llm_json c9Response [] =
      .ok (.obj [("plan", .arr
          [mkStep (.str "t1") (.obj []) (.str "Step 1 from legacy format"),
           mkStep (.str "t3") (.obj []) (.str "Step 3 from legacy format")]),
        ("confidence", .float PyFloat.pointEight)]) := rfl

/-- Claim C9 as amended: `action1..action3` are mapped in numeric order to
steps with `why = "Step N from legacy format"`, and a missing `actionN` is
simply skipped - the scan continues with the next index instead of
stopping.  Stated for any dict response holding `action1` and `action3`
(with truthy tool names) and no `action2`. -/
theorem c9_numbered_actions_skip_missing (f1 f3 : List (String × JValue))
    (ts : List JValue)
    (h1 : pyFalsy (getFieldD f1 "tool" (.str "")) = false)
    (h3 : pyFalsy (getFieldD f3 "tool" (.str "")) = false) :
    handle_llm_json (.obj [("action1", .obj f1), ("action3", .obj f3)]) ts =
      .ok (.obj [("plan", .arr
          [mkStep (getFieldD f1 "tool" (.str "")) (getFieldD f1 "arguments" (.obj []))
             (.str "Step 1 from legacy format"),
           mkStep (getFieldD f3 "tool" (.str "")) (getFieldD f3 "arguments" (.obj []))
             (.str "Step 3 from legacy format")]),
        ("confidence", .float PyFloat.pointEight)]) := by
  have hp : pyContains (.obj [("action1", .obj f1), ("action3", .obj f3)]) "plan"
      = .ok false := rfl
  have ha : pyContains (.obj [("action1", .obj f1), ("action3", .obj f3)]) "actions"
      = .ok false := rfl
  have hact : pyContains (.obj [("action1", .obj f1), ("action3", .obj f3)]) "action1"
      = .ok true := rfl
  have hcf : pyGetE (.obj [("action1", .obj f1), ("action3", .obj f3)]) "confidence"
      (.float PyFloat.pointEight) = .ok (.float PyFloat.pointEight) := rfl
  have e1 : legacyActionStep (.obj [("action1", .obj f1), ("action3", .obj f3)]) 1
      = .ok [mkStep (getFieldD f1 "tool" (.str "")) (getFieldD f1 "arguments" (.obj []))
               (.str "Step 1 from legacy format")] := by
    have hc : pyContains (.obj [("action1", .obj f1), ("action3", .obj f3)])
        ("action" ++ Nat.repr 1) = .ok true := rfl
    have hs : pySubscript (.obj [("action1", .obj f1), ("action3", .obj f3)])
        ("action" ++ Nat.repr 1) = .ok (.obj f1) := rfl
    unfold legacyActionStep
    simp only [hc, hs, h1]
    rfl
  have e2 : legacyActionStep (.obj [("action1", .obj f1), ("action3", .obj f3)]) 2
      = .ok [] := rfl
  have e3 : legacyActionStep (.obj [("action1", .obj f1), ("action3", .obj f3)]) 3
      = .ok [mkStep (getFieldD f3 "tool" (.str "")) (getFieldD f3 "arguments" (.obj []))
               (.str "Step 3 from legacy format")] := by
    have hc : pyContains (.obj [("action1", .obj f1), ("action3", .obj f3)])
        ("action" ++ Nat.repr 3) = .ok true := rfl
    have hs : pySubscript (.obj [("action1", .obj f1), ("action3", .obj f3)])
        ("action" ++ Nat.repr 3) = .ok (.obj f3) := rfl
    unfold legacyActionStep
    simp only [hc, hs, h3]
    rfl
  unfold handle_llm_json
  simp only [hp, ha, hact, hcf, e1, e2, e3]
  rfl

/-- Witness for the amended C9 at concrete step dicts. -/
theorem c9_numbered_actions_skip_missing_witness :
    pyFalsy (getFieldD [("tool", JValue.str "t1"), ("arguments", JValue.obj [])]
        "tool" (.str "")) = false ∧
      pyFalsy (getFieldD [("tool", JValue.str "t3"), ("arguments", JValue.obj [])]
        "tool" (.str "")) = false ∧
      handle_llm_json
          (.obj [("action1", .obj [("tool", JValue.str "t1"), ("arguments", JValue.obj [])]),
                 ("action3", .obj [("tool", JValue.str "t3"), ("arguments", JValue.obj [])])])
          [] =
        .ok (.obj [("plan", .arr
            [mkStep (getFieldD [("tool", JValue.str "t1"), ("arguments", JValue.obj [])]
                 "tool" (.str ""))
               (getFieldD [("tool", JValue.str "t1"), ("arguments", JValue.obj [])]
                 "arguments" (.obj []))
               (.str "Step 1 from legacy format"),
             mkStep (getFieldD [("tool", JValue.str "t3"), ("arguments", JValue.obj [])]
                 "tool" (.str ""))
               (getFieldD [("tool", JValue.str "t3"), ("arguments", JValue.obj [])]
                 "arguments" (.obj []))
               (.str "Step 3 from legacy format")]),
          ("confidence", .float PyFloat.pointEight)]) :=
  ⟨rfl, rfl,
   c9_numbered_actions_skip_missing
     [("tool", JValue.str "t1"), ("arguments", JValue.obj [])]
     [("tool", JValue.str "t3"), ("arguments", JValue.obj [])] [] rfl rfl⟩

/-- Claim C7 counterexample: prompt assembly happens before the `try`, so a
configuration whose template has an unknown placeholder makes
`reason_about_query` raise instead of returning an error-shaped plan. -/
theorem c7_counterexample :
    reason_about_query c7BadConfig "hi" [] c7Event = .error "KeyError" := rfl

/-- Claim C7 as amended: once the pre-`try` prompt assembly succeeds, the
entry point returns normally for EVERY backend behavior - every failure
from the LLM call on is converted to a plan value by the `except` handlers;
only prompt-assembly failures (bad templates, malformed tool metadata or
configuration sections read before line 129) escape as exceptions. -/
theorem c7_try_section_never_raises (config : JValue) (query : String)
    (tools : List JValue) (ev : LLMEvent)
    (h : reason_pre config query tools = .ok ()) :
    reason_about_query config query tools ev = .ok (reason_try config tools ev) := by
  unfold reason_about_query
  rw [h]

/-- Witness for the amended C7: with good templates the pipeline returns
normally even though the backend call raises. -/
theorem c7_try_section_never_raises_witness :
    reason_pre c7GoodConfig "hello" [] = .ok () ∧
      reason_about_query c7GoodConfig "hello" [] c7Event =
        .ok (reason_try c7GoodConfig [] c7Event) :=
  ⟨rfl, c7_try_section_never_raises c7GoodConfig "hello" [] c7Event rfl⟩

/-- Claim C10: `generate_json_schema` returns null exactly for an empty
tool list; for every non-empty list whose per-tool schemas synthesize
without raising, it returns an object schema requiring both `plan` and
`confidence` at the top level, with `plan` an array of `minItems` 1 whose
step schema enumerates the tool names in input order and `confidence` a
number with minimum 0.0 and maximum 1.0. -/
theorem c10_schema_nullity_and_shape :
    generate_json_schema [] = .ok none ∧
    ∀ (tools : List JValue) (pairs : List (JValue × JValue)),
      tools ≠ [] → mapExcept synthToolSchema tools = .ok pairs →
      generate_json_schema tools = .ok (some (mainSchema pairs)) ∧
      getPath (mainSchema pairs) ["required"]
        = some (.arr [.str "plan", .str "confidence"]) ∧
      getPath (mainSchema pairs) ["properties", "plan", "type"]
        = some (.str "array") ∧
      getPath (mainSchema pairs) ["properties", "plan", "minItems"]
        = some (.int 1) ∧
      getPath (mainSchema pairs)
          ["properties", "plan", "items", "properties", "tool", "enum"]
        = some (.arr (pairs.map (fun p => p.1))) ∧
      getPath (mainSchema pairs) ["properties", "confidence", "type"]
        = some (.str "number") ∧
      getPath (mainSchema pairs) ["properties", "confidence", "minimum"]
        = some (.float PyFloat.zero) ∧
      getPath (mainSchema pairs) ["properties", "confidence", "maximum"]
        = some (.float PyFloat.one) := by
  refine ⟨rfl, ?_⟩
  intro tools pairs hne hmap
  refine ⟨?_, rfl, rfl, rfl, rfl, rfl, rfl, rfl⟩
  cases tools with
  | nil => exact absurd rfl hne
  | cons t ts =>
    unfold generate_json_schema
    rw [hmap]
    rfl

/-- Witness for C10 at a one-tool list. -/
theorem c10_schema_nullity_and_shape_witness :
    c10Tools ≠ [] ∧
      mapExcept synthToolSchema c10Tools = .ok c10Pairs ∧
      (generate_json_schema c10Tools = .ok (some (mainSchema c10Pairs)) ∧
        getPath (mainSchema c10Pairs) ["required"]
          = some (.arr [.str "plan", .str "confidence"]) ∧
        getPath (mainSchema c10Pairs) ["properties", "plan", "type"]
          = some (.str "array") ∧
        getPath (mainSchema c10Pairs) ["properties", "plan", "minItems"]
          = some (.int 1) ∧
        getPath (mainSchema c10Pairs)
            ["properties", "plan", "items", "properties", "tool", "enum"]
          = some (.arr (c10Pairs.map (fun p => p.1))) ∧
        getPath (mainSchema c10Pairs) ["properties", "confidence", "type"]
          = some (.str "number") ∧
        getPath (mainSchema c10Pairs) ["properties", "confidence", "minimum"]
          = some (.float PyFloat.zero) ∧
        getPath (mainSchema c10Pairs) ["properties", "confidence", "maximum"]
          = some (.float PyFloat.one)) :=
  ⟨by simp [c10Tools], rfl,
   c10_schema_nullity_and_shape.2 c10Tools c10Pairs (by simp [c10Tools]) rfl⟩

/-- Claim C3 counterexample: through the legacy `actions` branch, a step
whose tool name zzz is neither a known name nor fuzzy-correctable (the
matcher returns nothing for it) still appears in the returned plan - the
legacy branches perform no tool-name validation at all. -/
theorem c3_counterexample :
    handle_llm_json c3Response c3Tools =
        .ok (.obj [("plan", .arr
            [mkStep (.str "zzz") (.obj []) (.str "Converted from legacy format")]),
          ("confidence", .float PyFloat.pointEight)]) ∧
      find_best_tool_match (.str "zzz") [.str "np_mean"] PyFloat.pointSix = .ok none :=
  ⟨rfl, rfl⟩

theorem substrLoop_mem (s : String) (l : List JValue) (a : String)
    (h : substrLoop s l = .ok (some a)) : JValue.str a ∈ l := by
  induction l with
  | nil => exact Option.noConfusion (Except.ok.inj h)
  | cons x rest ih =>
    cases x with
    | str b =>
      simp only [substrLoop] at h
      split at h
      · injection Except.ok.inj h with h3
        subst h3
        exact List.mem_cons_self _ _
      · exact List.mem_cons_of_mem _ (ih h)
    | null => exact Except.noConfusion h
    | bool b => exact Except.noConfusion h
    | int n => exact Except.noConfusion h
    | float x => exact Except.noConfusion h
    | arr l2 => exact Except.noConfusion h
    | obj l2 => exact Except.noConfusion h

theorem fuzzyLoop_mem (s : String) (th : PyFloat) (l : List JValue) :
    ∀ (best : Option String) (bs : PyFloat) (m : String),
      fuzzyLoop s th l best bs = .ok (some m) → best = some m ∨ JValue.str m ∈ l := by
  induction l with
  | nil => intro best bs m h; exact Or.inl (Except.ok.inj h)
  | cons x rest ih =>
    intro best bs m h
    cases x with
    | str b =>
      simp only [fuzzyLoop] at h
      split at h
      · rcases ih _ _ _ h with h2 | h2
        · injection h2 with h3
          subst h3
          exact Or.inr (List.mem_cons_self _ _)
        · exact Or.inr (List.mem_cons_of_mem _ h2)
      · rcases ih _ _ _ h with h2 | h2
        · exact Or.inl h2
        · exact Or.inr (List.mem_cons_of_mem _ h2)
    | null => exact Except.noConfusion h
    | bool b => exact Except.noConfusion h
    | int n => exact Except.noConfusion h
    | float x => exact Except.noConfusion h
    | arr l2 => exact Except.noConfusion h
    | obj l2 => exact Except.noConfusion h

theorem any_beq_of_mem (l : List JValue) (a : String) (h : JValue.str a ∈ l) :
    l.any (fun n => JValue.beq (JValue.str a) n) = true := by
  simp only [List.any_eq_true]
  refine ⟨_, h, ?_⟩
  simp [JValue.beq]

theorem contains_eq_any (l : List JValue) (a : JValue) :
    l.contains a = l.any (fun n => JValue.beq a n) := by
  induction l with
  | nil => rfl
  | cons x rest ih =>
    simp only [List.contains_cons, List.any_cons, ih]
    rfl

/-- Every name produced by the fuzzy matcher is Python-equal to a member of
the known-name list. -/
theorem find_best_mem (tool : JValue) (names : List JValue) (m : JValue)
    (h : find_best_tool_match tool names PyFloat.pointSix = .ok (some m)) :
    names.any (fun n => JValue.beq m n) = true := by
  unfold find_best_tool_match at h
  split at h
  · exact Option.noConfusion (Except.ok.inj h)
  · split at h
    · rename_i hc
      injection Except.ok.inj h with h2
      subst h2
      rw [← contains_eq_any]
      exact hc
    · split at h
      · rename_i s
        split at h
        · exact Except.noConfusion h
        · rename_i hsub
          injection Except.ok.inj h with h2
          subst h2
          exact any_beq_of_mem _ _ (substrLoop_mem _ _ _ hsub)
        · rename_i hsub
          split at h
          · exact Except.noConfusion h
          · rename_i r hfz
            cases r with
            | none => exact Option.noConfusion (Except.ok.inj h)
            | some b =>
              injection Except.ok.inj h with h2
              subst h2
              rcases fuzzyLoop_mem _ _ _ _ _ _ hfz with h3 | h3
              · exact Option.noConfusion h3
              · exact any_beq_of_mem _ _ h3
      · exact Except.noConfusion h

/-- Every step kept by the canonical-plan validation carries a tool name
that is Python-equal to a member of the known-name list. -/
theorem validateStep_tool_known (names : List JValue) (s x : JValue)
    (h : validateStep names s = .ok (some x)) :
    names.any (fun n => JValue.beq (objGetD x "tool" JValue.null) n) = true := by
  cases s with
  | obj fs =>
    simp only [validateStep] at h
    split at h
    · rename_i hc
      injection Except.ok.inj h with h2
      subst h2
      rw [← contains_eq_any]
      exact hc
    · split at h
      · exact Except.noConfusion h
      · exact Option.noConfusion (Except.ok.inj h)
      · rename_i m hfb
        split at h
        · exact Option.noConfusion (Except.ok.inj h)
        · injection Except.ok.inj h with h2
          subst h2
          exact find_best_mem _ _ _ hfb
  | null => exact Option.noConfusion (Except.ok.inj h)
  | bool b => exact Option.noConfusion (Except.ok.inj h)
  | int n => exact Option.noConfusion (Except.ok.inj h)
  | float y => exact Option.noConfusion (Except.ok.inj h)
  | str s2 => exact Option.noConfusion (Except.ok.inj h)
  | arr l2 => exact Option.noConfusion (Except.ok.inj h)

/-- Claim C3 as amended: tool-name validation with fuzzy correction and
silent dropping applies to the CANONICAL `plan` branch only; there, every
step of the returned plan has a tool name equal to a known tool name
(either already known or replaced by the fuzzy match).  The legacy
`actions` and `action1..3` branches convert steps without validation, as
the counterexample shows. -/
theorem c3_plan_branch_validates (names : List JValue) (steps : List JValue)
    (out : List JValue) (h : validatePlan names steps = .ok out)
    (s : JValue) (hs : s ∈ out) :
    names.any (fun n => JValue.beq (objGetD s "tool" JValue.null) n) = true := by
  induction steps generalizing out with
  | nil =>
    cases Except.ok.inj h
    exact absurd hs (List.not_mem_nil s)
  | cons a rest ih =>
    simp only [validatePlan] at h
    split at h
    · exact Except.noConfusion h
    · rename_i os hstep
      split at h
      · exact Except.noConfusion h
      · rename_i tail htail
        injection h with h2
        cases os with
        | none =>
          subst h2
          exact ih tail htail hs
        | some x =>
          subst h2
          rcases List.mem_cons.mp hs with h3 | h3
          · subst h3
            exact validateStep_tool_known names a s hstep
          · exact ih tail htail h3

/-- Witness for the amended C3: the fuzzy-corrected step keeps a known tool
name. -/
theorem c3_plan_branch_validates_witness :
    validatePlan c3WitnessNames c3WitnessSteps = .ok [c3WitnessStep] ∧
      c3WitnessNames.any
        (fun n => JValue.beq (objGetD c3WitnessStep "tool" JValue.null) n) = true :=
  ⟨rfl,
   c3_plan_branch_validates c3WitnessNames c3WitnessSteps [c3WitnessStep] rfl
     c3WitnessStep (List.mem_singleton.mpr rfl)⟩

/-! Order lemmas for the fraction comparisons of the fuzzy matcher. -/

theorem PyFloat.blt_iff (a b : PyFloat) (ha : 0 < a.den) (hb : 0 < b.den) :
    PyFloat.blt a b = true ↔ a.toRat < b.toRat := by
  unfold PyFloat.blt PyFloat.toRat
  rw [decide_eq_true_eq]
  rw [div_lt_div_iff₀ (by exact_mod_cast ha) (by exact_mod_cast hb)]
  constructor
  · intro h; exact_mod_cast h
  · intro h; exact_mod_cast h

theorem PyFloat.ble_iff (a b : PyFloat) (ha : 0 < a.den) (hb : 0 < b.den) :
    PyFloat.ble a b = true ↔ a.toRat ≤ b.toRat := by
  unfold PyFloat.ble PyFloat.toRat
  rw [decide_eq_true_eq]
  rw [div_le_div_iff₀ (by exact_mod_cast ha) (by exact_mod_cast hb)]
  constructor
  · intro h; exact_mod_cast h
  · intro h; exact_mod_cast h

theorem PyFloat.blt_eq_false_iff (a b : PyFloat) (ha : 0 < a.den) (hb : 0 < b.den) :
    PyFloat.blt a b = false ↔ b.toRat ≤ a.toRat := by
  rw [← not_lt, ← PyFloat.blt_iff a b ha hb]
  simp

theorem PyFloat.ble_eq_false_iff (a b : PyFloat) (ha : 0 < a.den) (hb : 0 < b.den) :
    PyFloat.ble a b = false ↔ b.toRat < a.toRat := by
  rw [← not_le, ← PyFloat.ble_iff a b ha hb]
  simp

theorem pySimilarity_den_pos (s a : String) : 0 < (pySimilarity s a).den := by
  simp only [pySimilarity]
  split
  · simp [PyFloat.one]
  · rename_i hlen
    have h2 : (pyMaxStr s a).length ≠ 0 := by simpa using hlen
    show (0 : Int) < ((pyMaxStr s a).length : Int)
    exact_mod_cast Nat.pos_of_ne_zero h2

theorem pointSix_den_pos : 0 < PyFloat.pointSix.den := by
  simp [PyFloat.pointSix]

theorem zero_toRat_lt_pointSix : PyFloat.zero.toRat < PyFloat.pointSix.toRat := by
  norm_num [PyFloat.toRat, PyFloat.zero, PyFloat.pointSix]

/-! Bridge between the loops of the code-side matcher on string-valued
JSON lists and the spec-side matcher on plain strings. -/

theorem str_beq_str (a b : String) : (JValue.str a == JValue.str b) = (a == b) := by
  show JValue.beq (.str a) (.str b) = (a == b)
  simp [JValue.beq]

theorem map_str_contains (l : List String) (c : String) :
    (l.map JValue.str).contains (JValue.str c) = l.contains c := by
  induction l with
  | nil => rfl
  | cons a rest ih =>
    simp only [List.map_cons, List.contains_cons, ih]
    have : (JValue.str c == JValue.str a) = (c == a) := by
      show JValue.beq (.str c) (.str a) = (c == a)
      simp [JValue.beq]
    rw [this]

theorem substrLoop_map_eq (c : String) (l : List String) :
    substrLoop c (l.map JValue.str) = .ok (l.find? (fun k => substrEitherWay c k)) := by
  induction l with
  | nil => rfl
  | cons a rest ih =>
    by_cases hcond : (charsContain (pyLowerList c) (pyLowerList a)
        || charsContain (pyLowerList a) (pyLowerList c)) = true
    · simp [substrLoop, List.find?, substrEitherWay, hcond]
    · simp only [Bool.not_eq_true] at hcond
      simp [substrLoop, List.find?, substrEitherWay, hcond, ih]

theorem fuzzyLoop_map_eq (s : String) (th : PyFloat) (known : List String) :
    ∀ (best : Option String) (bs : PyFloat),
      fuzzyLoop s th (known.map JValue.str) best bs
        = .ok (fuzzyFold s th known best bs) := by
  induction known with
  | nil => intro best bs; rfl
  | cons a rest ih =>
    intro best bs
    simp only [List.map_cons, fuzzyLoop, fuzzyFold]
    split
    · exact ih _ _
    · exact ih _ _

/-- A name selected by the specification's best-score rule always scores at
or above the threshold. -/
theorem specBestWith_above (sim : String → PyFloat) (th : PyFloat)
    (l : List String) (k : String) (h : specBestWith sim th l = some k) :
    PyFloat.ble th (sim k) = true := by
  induction l with
  | nil => exact Option.noConfusion h
  | cons a rest ih =>
    simp only [specBestWith] at h
    split at h
    · split at h
      · injection h with h2; subst h2; assumption
      · exact Option.noConfusion h
    · rename_i k2 heq
      split at h
      · injection h with h2; subst h2; exact ih heq
      · split at h
        · injection h with h2; subst h2; assumption
        · exact Option.noConfusion h

/-- Once a best match with score at or above the threshold is held, the
code's fold keeps it unless a strictly better name appears later; the
result is the specification's best-score selection compared against the
held score. -/
theorem fuzzyFold_some_eq (s : String) (th : PyFloat) (hth : 0 < th.den)
    (l : List String) :
    ∀ (k : String), PyFloat.ble th (pySimilarity s k) = true →
      fuzzyFold s th l (some k) (pySimilarity s k) =
        some (match specBestWith (fun a2 => pySimilarity s a2) th l with
              | none => k
              | some k2 =>
                if PyFloat.blt (pySimilarity s k) (pySimilarity s k2) then k2 else k) := by
  induction l with
  | nil => intro k hk; rfl
  | cons a rest ih =>
    intro k hk
    simp only [fuzzyFold, specBestWith]
    by_cases hblt : PyFloat.blt (pySimilarity s k) (pySimilarity s a) = true
    · by_cases hble : PyFloat.ble th (pySimilarity s a) = true
      · rw [if_pos (by rw [hblt, hble]; rfl)]
        rw [ih a hble]
        cases hrest : specBestWith (fun a2 => pySimilarity s a2) th rest with
        | none => simp [hrest, hble, hblt]
        | some k2 =>
          by_cases hlt : PyFloat.blt (pySimilarity s a) (pySimilarity s k2) = true
          · have h1 : (pySimilarity s k).toRat < (pySimilarity s a).toRat :=
              (PyFloat.blt_iff _ _ (pySimilarity_den_pos s k)
                (pySimilarity_den_pos s a)).mp hblt
            have h2 : (pySimilarity s a).toRat < (pySimilarity s k2).toRat :=
              (PyFloat.blt_iff _ _ (pySimilarity_den_pos s a)
                (pySimilarity_den_pos s k2)).mp hlt
            have h3 : PyFloat.blt (pySimilarity s k) (pySimilarity s k2) = true :=
              (PyFloat.blt_iff _ _ (pySimilarity_den_pos s k)
                (pySimilarity_den_pos s k2)).mpr (lt_trans h1 h2)
            simp [hrest, hlt, h3]
          · simp only [Bool.not_eq_true] at hlt
            simp [hrest, hlt, hble, hblt]
      · simp only [Bool.not_eq_true] at hble
        rw [if_neg (by rw [hble]; simp)]
        rw [ih k hk]
        cases hrest : specBestWith (fun a2 => pySimilarity s a2) th rest with
        | none => simp [hrest, hble]
        | some k2 =>
          by_cases hlt : PyFloat.blt (pySimilarity s a) (pySimilarity s k2) = true
          · simp [hrest, hlt]
          · exfalso
            have hk2 := specBestWith_above _ _ _ _ hrest
            have d2 : th.toRat ≤ (pySimilarity s k2).toRat :=
              (PyFloat.ble_iff _ _ hth (pySimilarity_den_pos s k2)).mp hk2
            simp only [Bool.not_eq_true] at hlt
            have d3 : (pySimilarity s k2).toRat ≤ (pySimilarity s a).toRat :=
              (PyFloat.blt_eq_false_iff _ _ (pySimilarity_den_pos s a)
                (pySimilarity_den_pos s k2)).mp hlt
            have d4 : (pySimilarity s a).toRat < th.toRat :=
              (PyFloat.ble_eq_false_iff _ _ hth (pySimilarity_den_pos s a)).mp hble
            linarith
    · simp only [Bool.not_eq_true] at hblt
      rw [if_neg (by rw [hblt]; simp)]
      rw [ih k hk]
      cases hrest : specBestWith (fun a2 => pySimilarity s a2) th rest with
      | none =>
        by_cases hble : PyFloat.ble th (pySimilarity s a) = true
        · simp [hrest, hble, hblt]
        · simp only [Bool.not_eq_true] at hble
          simp [hrest, hble]
      | some k2 =>
        by_cases hlt : PyFloat.blt (pySimilarity s a) (pySimilarity s k2) = true
        · simp [hrest, hlt]
        · simp only [Bool.not_eq_true] at hlt
          by_cases hble : PyFloat.ble th (pySimilarity s a) = true
          · have d1 : (pySimilarity s a).toRat ≤ (pySimilarity s k).toRat :=
              (PyFloat.blt_eq_false_iff _ _ (pySimilarity_den_pos s k)
                (pySimilarity_den_pos s a)).mp hblt
            have d2 : (pySimilarity s k2).toRat ≤ (pySimilarity s a).toRat :=
              (PyFloat.blt_eq_false_iff _ _ (pySimilarity_den_pos s a)
                (pySimilarity_den_pos s k2)).mp hlt
            have d3 : PyFloat.blt (pySimilarity s k) (pySimilarity s k2) = false :=
              (PyFloat.blt_eq_false_iff _ _ (pySimilarity_den_pos s k)
                (pySimilarity_den_pos s k2)).mpr (le_trans d2 d1)
            simp [hrest, hlt, hble, hblt, d3]
          · exfalso
            have hk2 := specBestWith_above _ _ _ _ hrest
            have d2 : th.toRat ≤ (pySimilarity s k2).toRat :=
              (PyFloat.ble_iff _ _ hth (pySimilarity_den_pos s k2)).mp hk2
            have d3 : (pySimilarity s k2).toRat ≤ (pySimilarity s a).toRat :=
              (PyFloat.blt_eq_false_iff _ _ (pySimilarity_den_pos s a)
                (pySimilarity_den_pos s k2)).mp hlt
            simp only [Bool.not_eq_true] at hble
            have d4 : (pySimilarity s a).toRat < th.toRat :=
              (PyFloat.ble_eq_false_iff _ _ hth (pySimilarity_den_pos s a)).mp hble
            linarith

/-- Starting from no best match and score 0.0, the code's fold computes
exactly the specification's best-score selection (for the positive
threshold in use). -/
theorem fuzzyFold_none_eq (s : String) (th : PyFloat) (hth : 0 < th.den)
    (hth0 : PyFloat.zero.toRat < th.toRat) (l : List String) :
    fuzzyFold s th l none PyFloat.zero =
      specBestWith (fun a2 => pySimilarity s a2) th l := by
  induction l with
  | nil => rfl
  | cons a rest ih =>
    simp only [fuzzyFold, specBestWith]
    by_cases hble : PyFloat.ble th (pySimilarity s a) = true
    · have hta : th.toRat ≤ (pySimilarity s a).toRat :=
        (PyFloat.ble_iff _ _ hth (pySimilarity_den_pos s a)).mp hble
      have hblt : PyFloat.blt PyFloat.zero (pySimilarity s a) = true :=
        (PyFloat.blt_iff _ _ (by norm_num [PyFloat.zero])
          (pySimilarity_den_pos s a)).mpr (lt_of_lt_of_le hth0 hta)
      rw [if_pos (by rw [hblt, hble]; rfl)]
      rw [fuzzyFold_some_eq s th hth rest a hble]
      cases hrest : specBestWith (fun a2 => pySimilarity s a2) th rest with
      | none => simp [hrest, hble]
      | some k2 =>
        by_cases hlt : PyFloat.blt (pySimilarity s a) (pySimilarity s k2) = true
        · simp [hrest, hlt]
        · simp only [Bool.not_eq_true] at hlt
          simp [hrest, hlt, hble]
    · simp only [Bool.not_eq_true] at hble
      rw [if_neg (by rw [hble]; simp)]
      rw [ih]
      cases hrest : specBestWith (fun a2 => pySimilarity s a2) th rest with
      | none => simp [hrest, hble]
      | some k2 =>
        have hk2 := specBestWith_above _ _ _ _ hrest
        have d2 : th.toRat ≤ (pySimilarity s k2).toRat :=
          (PyFloat.ble_iff _ _ hth (pySimilarity_den_pos s k2)).mp hk2
        have d4 : (pySimilarity s a).toRat < th.toRat :=
          (PyFloat.ble_eq_false_iff _ _ hth (pySimilarity_den_pos s a)).mp hble
        have hlt : PyFloat.blt (pySimilarity s a) (pySimilarity s k2) = true :=
          (PyFloat.blt_iff _ _ (pySimilarity_den_pos s a)
            (pySimilarity_den_pos s k2)).mpr (lt_of_lt_of_le d4 d2)
        simp [hrest, hlt]

/-- Claim C8 as amended: on string inputs the code's matcher agrees with
the spec-worded matcher ONCE the similarity is taken over the
lexicographically smaller/larger strings (Python `min`/`max`) instead of
the shorter/longer ones, together with the code's empty-candidate and
empty-list guard; the claim's two boundary examples hold unchanged. -/
theorem c8_matcher_follows_code :
    (∀ (candidate : String) (known : List String),
      find_best_tool_match (.str candidate) (known.map JValue.str) PyFloat.pointSix
        = .ok ((spec_match_amended candidate known PyFloat.pointSix).map JValue.str)) ∧
    find_best_tool_match (.str "mean") [.str "np_mean", .str "np_std"] PyFloat.pointSix
      = .ok (some (.str "np_mean")) ∧
    find_best_tool_match (.str "xyz") [.str "np_mean", .str "np_std"] PyFloat.pointSix
      = .ok none := by
  refine ⟨?_, rfl, rfl⟩
  intro candidate known
  cases known with
  | nil => simp [find_best_tool_match, spec_match_amended]
  | cons k0 krest =>
    by_cases hc : candidate = ""
    · subst hc
      simp [find_best_tool_match, spec_match_amended, pyFalsy]
    · have hcb : (candidate == "") = false := by simp [hc]
      have hg1 : pyFalsy (JValue.str candidate) = false := by simp [pyFalsy, hcb]
      have hg2 : ((k0 :: krest).map JValue.str).isEmpty = false := rfl
      by_cases hmemP : candidate = k0 ∨ candidate ∈ krest
      · simp [find_best_tool_match, spec_match_amended, hg1, hg2, hcb,
              map_str_contains, str_beq_str, hmemP, -List.map_cons]
      · cases hfind : (k0 :: krest).find? (fun k => substrEitherWay candidate k) with
        | some a =>
          simp [find_best_tool_match, spec_match_amended, hg1, hg2, hcb,
                map_str_contains, str_beq_str, hmemP, substrLoop_map_eq, hfind,
                -List.map_cons]
        | none =>
          simp [find_best_tool_match, spec_match_amended, hg1, hg2, hcb,
                map_str_contains, str_beq_str, hmemP, substrLoop_map_eq, hfind,
                fuzzyLoop_map_eq,
                fuzzyFold_none_eq candidate PyFloat.pointSix pointSix_den_pos
                  zero_toRat_lt_pointSix, -List.map_cons]

/-- Claim C8 counterexample: for the candidate ea against the known name
abcde, the code scores with Python `min`/`max` (lexicographic), counting
the characters of abcde inside ea over length 2 and matching with score
1.0, while the claim's length-based similarity gives 2/5 and no match. -/
theorem c8_counterexample :
    find_best_tool_match (.str "ea") [.str "abcde"] PyFloat.pointSix
        = .ok (some (.str "abcde")) ∧
      spec_match "ea" ["abcde"] PyFloat.pointSix = none :=
  ⟨rfl, rfl⟩
